import Mathlib

/-!
Shallow embedding of the out-of-band interaction client of
`packages/frontend/src/services/InteractshService.ts` (the `useClientService`
factory).  Mutable `Ref` cells of the service become fields of an explicit
`ClientState` record; each operation becomes a pure function threading that
record.  Because the TypeScript operations may mutate several cells before
throwing, every operation returns the (possibly mutated) state alongside an
`Except` value: an `Except.error` models a thrown exception, and errors that
the source catches and merely logs (`console.error`) are returned as data, not
as `Except.error`.  HTTP exchanges are modelled by passing the transport's
answer (`Option` response, `none` = transport failure) as an argument, and the
crypto provider's decryption as a function argument.
-/

/-- The `State` enum of the service: `Idle = 0`, `Polling = 1`, `Closed = 2`. -/
inductive CState where
  | Idle : CState
  | Polling : CState
  | Closed : CState
deriving DecidableEq, Repr

/-- Model of a parsed WHATWG `URL` restricted to what the service uses:
scheme, host, and path.  `new URL(s)` is modelled by `parseURL`,
`url.toString()` by `URLModel.toString`, `url.host` by the `host` field. -/
structure URLModel where
  scheme : String
  host : String
  path : String
deriving DecidableEq, Repr

/-- Serialization `url.toString()`: serialize back to `scheme://host path`. -/
def URLModel.toString (u : URLModel) : String :=
  u.scheme ++ "://" ++ u.host ++ u.path

/-- Character-list core of `new URL(s)`: split the input at `"://"`, then at
the first `/`; an absolute URL with empty path normalizes to path `/`
(as `new URL("https://oast.site").toString()` is `https://oast.site/`).
Returns `none` when the input does not parse (the constructor throws). -/
def parseURLChars (cs : List Char) : Option URLModel :=
  let scheme := cs.takeWhile (fun c => c != ':')
  match cs.drop scheme.length with
  | ':' :: '/' :: '/' :: rest =>
    if scheme.isEmpty then none
    else
      let host := rest.takeWhile (fun c => c != '/')
      let path := rest.drop host.length
      if host.isEmpty then none
      else some ⟨⟨scheme⟩, ⟨host⟩, if path.isEmpty then ⟨['/']⟩ else ⟨path⟩⟩
  | _ => none

/-- Parsing `new URL(s)` as a total function returning `none` on a parse failure. -/
def parseURL (s : String) : Option URLModel := parseURLChars s.data

/-- Well-formedness of a URL model: nonempty scheme without `:`,
nonempty host without `/`, path starting with `/`.  Every output of
`parseURL` has this shape. -/
def URLModel.WF (u : URLModel) : Prop :=
  u.scheme.data ≠ [] ∧ ':' ∉ u.scheme.data ∧
  u.host.data ≠ [] ∧ '/' ∉ u.host.data ∧ u.path.data.head? = some '/'

/-- Modelled from the spec: the Identifier Generator (`generateRandomID` of
`@/utils`, whose source is not under `src/`) "produces
cryptographically-unpredictable random identifiers of a given length from a
constrained alphabet".  Randomness is modelled by an explicit entropy seed:
the result is a string of exactly the requested length over the
lowercase-alphanumeric alphabet, determined by the seed. -/
def idAlphabet : List Char :=
  "abcdefghijklmnopqrstuvwxyz0123456789".data

def generateRandomID (seed : Nat) (len : Nat) : String :=
  ⟨(List.range len).map (fun i => idAlphabet.getD ((seed + i) % idAlphabet.length) 'a')⟩

/-- Modelled from the spec: the default `token` is "freshly generated"
(`uuidv4()` from the third-party `uuid` package).  Modelled as a seeded
random identifier of UUID length. -/
def uuidv4 (seed : Nat) : String := generateRandomID seed 36

/-- JavaScript `x || d` for an optional string (`none` and `""` are falsy). -/
def jsOr : Option String → String → String
  | some s, d => if s = "" then d else s
  | none, d => d

/-- JavaScript `x || d` for an optional numeric length (`none` and `0` falsy). -/
def jsOrNat : Option Nat → Nat → Nat
  | some n, d => if n = 0 then d else n
  | none, d => d

/-- The `SessionInfo` interface (the saved-session shape). -/
structure SessionInfo where
  serverURL : String
  token : String
  privateKey : String
  correlationID : String
  secretKey : String
deriving DecidableEq, Repr

/-- The `Options` interface of `initialize` (fields the core consults;
`disableHTTPFallback` and `httpClient` have no modelled behavior). -/
structure Options where
  serverURL : Option String := none
  token : Option String := none
  correlationIdLength : Option Nat := none
  correlationIdNonceLength : Option Nat := none
  sessionInfo : Option SessionInfo := none
  keepAliveInterval : Option Int := none
deriving Repr

/-- Entropy consumed by one `initialize` call: one seed per random identifier
the source draws (`uuidv4()`, `generateRandomID` for the correlation ID and
for the secret key). -/
structure Entropy where
  tokenSeed : Nat
  corrSeed : Nat
  secretSeed : Nat
deriving Repr

/-- Error taxonomy of the service (§7 of the spec); constructors carry the
response body where the source interpolates it into the message. -/
inductive Err where
  | StateError : String → Err
  | RegistrationError : Err
  | AuthenticationError : Err
  | PollingError : String → Err
  | DecodeError : Err
  | DeregistrationError : String → Err
  | ConfigurationError : String → Err
  | TransportError : Err
  | URLError : Err
deriving DecidableEq, Repr

/-- The mutable cells of `useClientService` gathered into one record. -/
structure ClientState where
  state : CState
  correlationID : Option String
  secretKey : Option String
  serverURL : Option URLModel
  token : Option String
  quitPollingFlag : Bool
  correlationIdNonceLength : Nat
  pollingInterval : Int
deriving DecidableEq, Repr

/-- The cells' initial values (`State.Idle`, all identity cells `undefined`,
nonce length 13, polling interval 5000 ms). -/
def initialState : ClientState :=
  { state := CState.Idle, correlationID := none, secretKey := none,
    serverURL := none, token := none, quitPollingFlag := false,
    correlationIdNonceLength := 13, pollingInterval := 5000 }

/-- An HTTP response as the transport hands it back: status and (error) body. -/
structure HttpResponse where
  status : Nat
  body : String
deriving DecidableEq, Repr

/-- A `/poll` response: status, error body (used when status ≠ 200), and on
success the envelope `\x7bdata: [...], aes_key\x7d`; `dataField = none` models a body
whose `data` member is absent or not an array. -/
structure PollResponse where
  status : Nat
  errBody : String
  aesKey : String
  dataField : Option (List String)
deriving DecidableEq, Repr

/-- Operation `startPolling`: throws "Client is already polling" when already Polling;
otherwise clears the quit flag and enters Polling. -/
def startPolling (s : ClientState) : Except Err Unit × ClientState :=
  if s.state = CState.Polling then
    (.error (Err.StateError "Client is already polling"), s)
  else
    (.ok (), { s with quitPollingFlag := false, state := CState.Polling })

/-- Operation `stopPolling`: throws "Client is not polling" unless Polling; otherwise
sets the quit flag and returns to Idle. -/
def stopPolling (s : ClientState) : Except Err Unit × ClientState :=
  if s.state ≠ CState.Polling then
    (.error (Err.StateError "Client is not polling"), s)
  else
    (.ok (), { s with quitPollingFlag := true, state := CState.Idle })

/-- Operation `setRefreshTimeSecond`: range-checks 5..3600 seconds, then stores the
interval in milliseconds. -/
def setRefreshTimeSecond (s : ClientState) (seconds : Int) :
    Except Err Unit × ClientState :=
  if seconds < 5 ∨ seconds > 3600 then
    (.error (Err.ConfigurationError
      "The polling interval must be between 5 and 3600 seconds"), s)
  else
    (.ok (), { s with pollingInterval := seconds * 1000 })

/-- The decrypt-and-decode step for one batch item:
`cryptoService.decryptMessage(aes_key, item)` followed by `JSON.parse`,
modelled as one function argument returning `none` when either step throws.
(The crypto provider's source is not under `src/`; the spec treats it as an
opaque capability, so it stays a parameter.) -/
def DecodeFn : Type := String → String → Option String

/-- The `for (const item of data.data)` loop body: decode each item in order,
invoking the callback with each decoded interaction; the first failure throws
out of the loop, so later items are not processed.  Returns the list of
callback invocations (in order) and the logged error, if any. -/
def processItems (decode : DecodeFn) (key : String) :
    List String → List String × Option Err
  | [] => ([], none)
  | item :: rest =>
    match decode key item with
    | none => ([], some Err.DecodeError)
    | some plain =>
      let (delivered, e) := processItems decode key rest
      (plain :: delivered, e)

/-- Operation `getInteractions`: one poll cycle.  Everything is inside `try … catch`
with a `console.error`, so the cycle never throws to its caller; the logged
error is returned as data.  `resp = none` models a transport failure of the
GET; a missing server URL makes the `new URL(path, "")` construction throw
(caught and logged too).  The returned list is the sequence of callback
invocations, in order. -/
def getInteractions (decode : DecodeFn) (s : ClientState)
    (resp : Option PollResponse) : List String × Option Err :=
  if s.serverURL = none then ([], some Err.URLError)
  else
    match resp with
    | none => ([], some Err.TransportError)
    | some r =>
      if r.status ≠ 200 then
        if r.status = 401 then ([], some Err.AuthenticationError)
        else ([], some (Err.PollingError r.errBody))
      else
        match r.dataField with
        | some items => processItems decode r.aesKey items
        | none => ([], none)

/-- The background `pollingLoop` launched by `startPolling`: each iteration
first checks the quit flag, then runs one poll cycle (whose errors are caught
both inside `getInteractions` and by the loop's own `try … catch`), then
sleeps.  A run is modelled over the finite list of transport answers the
cycles would receive; no cycle mutates the state or the flag. -/
def pollingLoop (decode : DecodeFn) (s : ClientState) :
    List (Option PollResponse) → List (List String × Option Err)
  | [] => []
  | r :: rs =>
    if s.quitPollingFlag then []
    else getInteractions decode s r :: pollingLoop decode s rs

/-- Operation `poll`: manual single-shot cycle; throws "Client is not polling" unless
Polling, otherwise runs one cycle (which never throws back). -/
def poll (decode : DecodeFn) (s : ClientState) (resp : Option PollResponse) :
    Except Err Unit × List String × Option Err :=
  if s.state ≠ CState.Polling then
    (.error (Err.StateError "Client is not polling"), [], none)
  else
    let (delivered, e) := getInteractions decode s resp
    (.ok (), delivered, e)

/-- Operation `performRegistration`: POST `/register`.  Throws only when the server URL
is undefined (that check is outside the `try`); a transport failure or a
non-200 status raises "Registration failed" inside the `try`, which the
`catch` logs — so the function returns normally, with the logged error as
data.  Only a 200 sets the state to Idle. -/
def performRegistration (s : ClientState) (resp : Option HttpResponse) :
    Except Err (Option Err) × ClientState :=
  if s.serverURL = none then
    (.error (Err.ConfigurationError "Server URL is not defined"), s)
  else
    match resp with
    | none => (.ok (some Err.RegistrationError), s)
    | some r =>
      if r.status = 200 then (.ok none, { s with state := CState.Idle })
      else (.ok (some Err.RegistrationError), s)

/-- Operation `close`: guarded against Polling and Closed (throws, state untouched);
POSTs `/deregister` (the URL construction throws when the server URL is
undefined, and a transport failure rejects the await — both propagate, as
`close` has no `try`); a non-200 throws a deregistration error with the
state unchanged; only a 200 moves the state to Closed. -/
def close (s : ClientState) (resp : Option HttpResponse) :
    Except Err Unit × ClientState :=
  if s.state = CState.Polling then
    (.error (Err.StateError "Client should stop polling before closing"), s)
  else if s.state = CState.Closed then
    (.error (Err.StateError "Client is already closed"), s)
  else if s.serverURL = none then (.error Err.URLError, s)
  else
    match resp with
    | none => (.error Err.TransportError, s)
    | some r =>
      if r.status ≠ 200 then
        (.error (Err.DeregistrationError r.body), s)
      else
        (.ok (), { s with state := CState.Closed })

/-- Tail of `initialize` after all assignments: perform the registration,
then — when `keepAliveInterval` is truthy — adopt it as the polling interval
and start the polling scheduler. -/
def initializeFinish (s : ClientState) (opts : Options)
    (regResp : Option HttpResponse) : Except Err (Option Err) × ClientState :=
  match performRegistration s regResp with
  | (.error e, s1) => (.error e, s1)
  | (.ok logged, s1) =>
    match opts.keepAliveInterval with
    | none => (.ok logged, s1)
    | some k =>
      if k = 0 then (.ok logged, s1)
      else
        let s2 := { s1 with pollingInterval := k }
        match startPolling s2 with
        | (.error e, s3) => (.error e, s3)
        | (.ok _, s3) => (.ok logged, s3)

/-- Operation `initialize`, following the source's assignment order: token (`options.token
|| uuidv4()`), correlation ID (`sessionInfo?.correlationID ||
generateRandomID(correlationIdLength || 20)`), secret key
(`sessionInfo?.secretKey || generateRandomID(correlationIdNonceLength ||
13)`), then `serverURL = new URL(options.serverURL || "https://oast.site")`
(throwing on a parse failure with the earlier cells already mutated), the
nonce length, the session-resumption overrides (token verbatim, then the
session's URL — parsed, throwing on failure after the token override), the
registration, and finally the optional polling start. -/
def initializeClient (s : ClientState) (opts : Options) (ent : Entropy)
    (regResp : Option HttpResponse) : Except Err (Option Err) × ClientState :=
  let s1 := { s with token := some (jsOr opts.token (uuidv4 ent.tokenSeed)) }
  let s2 := { s1 with correlationID := some (jsOr
      (opts.sessionInfo.map SessionInfo.correlationID)
      (generateRandomID ent.corrSeed (jsOrNat opts.correlationIdLength 20))) }
  let s3 := { s2 with secretKey := some (jsOr
      (opts.sessionInfo.map SessionInfo.secretKey)
      (generateRandomID ent.secretSeed (jsOrNat opts.correlationIdNonceLength 13))) }
  match parseURL (jsOr opts.serverURL "https://oast.site") with
  | none => (.error Err.URLError, s3)
  | some u =>
    let s4 := { s3 with serverURL := some u,
                        correlationIdNonceLength :=
                          jsOrNat opts.correlationIdNonceLength 13 }
    match opts.sessionInfo with
    | none => initializeFinish s4 opts regResp
    | some si =>
      let s5 := { s4 with token := some si.token }
      match parseURL si.serverURL with
      | none => (.error Err.URLError, s5)
      | some u2 => initializeFinish { s5 with serverURL := some u2 } opts regResp

/-- A JSON string-escape sufficient for the exported fields (quote and
backslash); `JSON.stringify` restricted to the characters the session fields
can carry. -/
def jsonEscapeChar (c : Char) : List Char :=
  if c = '"' ∨ c = '\\' then ['\\', c] else [c]

def jsonEscape (s : String) : String :=
  ⟨s.data.foldr (fun c acc => jsonEscapeChar c ++ acc) []⟩

def jsonStrField (key val : String) : String :=
  "\"" ++ key ++ "\": \"" ++ jsonEscape val ++ "\""

/-- Model of `JSON.stringify(session, null, 2)` on the `SessionInfo` object literal of
`saveSession`, whose insertion order is serverURL, token, privateKey,
correlationID, secretKey. -/
def sessionInfoToJSON (si : SessionInfo) : String :=
  "\x7b\n  " ++ jsonStrField "serverURL" si.serverURL ++ ",\n  "
  ++ jsonStrField "token" si.token ++ ",\n  "
  ++ jsonStrField "privateKey" si.privateKey ++ ",\n  "
  ++ jsonStrField "correlationID" si.correlationID ++ ",\n  "
  ++ jsonStrField "secretKey" si.secretKey ++ "\n\x7d"

/-- The `SessionInfo` object `saveSession` builds: throws "Session data is
incomplete" when serverURL, correlationID or secretKey is falsy (undefined —
or, for the strings, empty); `token` is `token.value || ""`; the
`privateKey` field is `cryptoService.getPrivateKey() ? "" : ""` — the empty
string on both branches.  `privKey` models the crypto provider's
`getPrivateKey()` (`none` = no key material held). -/
def saveSessionInfo (s : ClientState) (privKey : Option String) :
    Except Err SessionInfo :=
  match s.serverURL, s.correlationID, s.secretKey with
  | some u, some c, some k =>
    if c = "" ∨ k = "" then
      .error (Err.ConfigurationError "Session data is incomplete")
    else
      .ok { serverURL := URLModel.toString u, token := jsOr s.token "",
            privateKey := match privKey with | some _ => "" | none => "",
            correlationID := c, secretKey := k }
  | _, _, _ => .error (Err.ConfigurationError "Session data is incomplete")

/-- Operation `saveSession`: the JSON string returned for download or storage. -/
def saveSession (s : ClientState) (privKey : Option String) :
    Except Err String :=
  (saveSessionInfo s privKey).map sessionInfoToJSON

/-- Operation `generateUrl`: empty string when Closed or the correlation ID or server
URL is falsy; otherwise `https://` + correlationID + a fresh nonce of the
configured length + `.` + host.  The fresh draw of `generateRandomID` on
every call is modelled by the per-call `seed` argument. -/
def generateUrl (s : ClientState) (seed : Nat) : String :=
  match s.correlationID, s.serverURL with
  | some c, some u =>
    if s.state = CState.Closed ∨ c = "" then ""
    else "https://" ++ c ++ generateRandomID seed s.correlationIdNonceLength
         ++ "." ++ u.host
  | _, _ => ""

theorem takeWhile_append_cons (p : Char → Bool) (l1 : List Char) (c : Char)
    (l2 : List Char) (h1 : ∀ a ∈ l1, p a = true) (h2 : p c = false) :
    (l1 ++ c :: l2).takeWhile p = l1 := by
  induction l1 with
  | nil => simp [List.takeWhile_cons, h2]
  | cons a t ih =>
    have ha : p a = true := h1 a (by simp)
    simp only [List.cons_append, List.takeWhile_cons, ha, if_true]
    rw [ih (fun x hx => h1 x (by simp [hx]))]

/-- Every well-formed URL survives the serialize-then-parse round trip
(`new URL(url.toString())` reproduces the URL). -/
theorem parseURL_toString (u : URLModel) (h : u.WF) :
    parseURL u.toString = some u := by
  obtain ⟨hs, hsc, hh, hhs, hp⟩ := h
  obtain ⟨ptl, hptl⟩ : ∃ tl, u.path.data = '/' :: tl := by
    cases hpd : u.path.data with
    | nil => rw [hpd] at hp; simp at hp
    | cons a t =>
      rw [hpd] at hp
      simp only [List.head?_cons, Option.some.injEq] at hp
      exact ⟨t, by rw [hp]⟩
  have hdata : (URLModel.toString u).data
      = u.scheme.data ++ ':' :: '/' :: '/' :: (u.host.data ++ u.path.data) := by
    simp [URLModel.toString, String.data_append]
  have htw : (u.scheme.data ++ ':' :: '/' :: '/'
      :: (u.host.data ++ u.path.data)).takeWhile (fun c => c != ':')
      = u.scheme.data := by
    refine takeWhile_append_cons _ _ _ _ (fun a ha => ?_) (by simp)
    simp only [bne_iff_ne, ne_eq, decide_eq_true_eq]
    intro hcontra; exact hsc (hcontra ▸ ha)
  have htw2 : (u.host.data ++ u.path.data).takeWhile (fun c => c != '/')
      = u.host.data := by
    rw [hptl]
    refine takeWhile_append_cons _ _ _ _ (fun a ha => ?_) (by simp)
    simp only [bne_iff_ne, ne_eq, decide_eq_true_eq]
    intro hcontra; exact hhs (hcontra ▸ ha)
  unfold parseURL parseURLChars
  rw [hdata, htw]
  simp only [List.drop_left]
  simp only [List.isEmpty_iff]
  rw [if_neg hs, htw2, List.drop_left]
  have hpne : u.path.data ≠ [] := by rw [hptl]; simp
  rw [if_neg hh, if_neg hpne]

/-- The Identifier Generator returns exactly the requested length. -/
theorem generateRandomID_length (seed len : Nat) :
    (generateRandomID seed len).length = len := by
  simp [generateRandomID, String.length]

/-- A requested length of at least one gives a nonempty identifier. -/
theorem generateRandomID_ne_empty (seed len : Nat) (h : 0 < len) :
    generateRandomID seed len ≠ "" := by
  intro hcontra
  have hlen := congrArg String.length hcontra
  rw [generateRandomID_length] at hlen
  simp [String.length] at hlen
  omega

theorem jsOr_ne_empty (o : Option String) (d : String) (hd : d ≠ "") :
    jsOr o d ≠ "" := by
  cases o with
  | none => simpa [jsOr]
  | some s =>
    by_cases h : s = ""
    · simpa [jsOr, h]
    · simp [jsOr, h]

theorem jsOrNat_pos (o : Option Nat) (d : Nat) (hd : 0 < d) : 0 < jsOrNat o d := by
  cases o with
  | none => simpa [jsOrNat]
  | some n =>
    by_cases h : n = 0
    · simpa [jsOrNat, h]
    · simp only [jsOrNat, h, if_false]
      omega

/-- Lemma: `performRegistration` touches only the `state` cell. -/
theorem performRegistration_cells (s : ClientState) (r : Option HttpResponse) :
    ((performRegistration s r).2).correlationID = s.correlationID
    ∧ ((performRegistration s r).2).secretKey = s.secretKey
    ∧ ((performRegistration s r).2).serverURL = s.serverURL
    ∧ ((performRegistration s r).2).token = s.token
    ∧ ((performRegistration s r).2).correlationIdNonceLength = s.correlationIdNonceLength
    ∧ ((performRegistration s r).2).pollingInterval = s.pollingInterval := by
  unfold performRegistration
  split
  · exact ⟨rfl, rfl, rfl, rfl, rfl, rfl⟩
  · cases r with
    | none => exact ⟨rfl, rfl, rfl, rfl, rfl, rfl⟩
    | some x =>
      by_cases h : x.status = 200 <;> simp [h]

/-- Lemma: `startPolling` touches only `state` and `quitPollingFlag`. -/
theorem startPolling_cells (s : ClientState) :
    ((startPolling s).2).correlationID = s.correlationID
    ∧ ((startPolling s).2).secretKey = s.secretKey
    ∧ ((startPolling s).2).serverURL = s.serverURL
    ∧ ((startPolling s).2).token = s.token
    ∧ ((startPolling s).2).correlationIdNonceLength = s.correlationIdNonceLength
    ∧ ((startPolling s).2).pollingInterval = s.pollingInterval := by
  unfold startPolling
  split <;> exact ⟨rfl, rfl, rfl, rfl, rfl, rfl⟩

/-- Lemma: `initializeFinish` leaves every session-identity cell unchanged. -/
theorem initializeFinish_cells (s : ClientState) (opts : Options)
    (r : Option HttpResponse) :
    ((initializeFinish s opts r).2).correlationID = s.correlationID
    ∧ ((initializeFinish s opts r).2).secretKey = s.secretKey
    ∧ ((initializeFinish s opts r).2).serverURL = s.serverURL
    ∧ ((initializeFinish s opts r).2).token = s.token
    ∧ ((initializeFinish s opts r).2).correlationIdNonceLength = s.correlationIdNonceLength := by
  obtain ⟨p1, p2, p3, p4, p5, p6⟩ := performRegistration_cells s r
  unfold initializeFinish
  rcases hpr : performRegistration s r with ⟨e, s1⟩
  rw [hpr] at p1 p2 p3 p4 p5
  cases e with
  | error err => exact ⟨p1, p2, p3, p4, p5⟩
  | ok logged =>
    cases hka : opts.keepAliveInterval with
    | none => exact ⟨p1, p2, p3, p4, p5⟩
    | some k =>
      by_cases hk : k = 0
      · simp only [hk, if_true, reduceIte]
        exact ⟨p1, p2, p3, p4, p5⟩
      · simp only [hk, if_false, reduceIte]
        obtain ⟨q1, q2, q3, q4, q5, q6⟩ :=
          startPolling_cells { s1 with pollingInterval := k }
        rcases hsp : startPolling { s1 with pollingInterval := k } with ⟨e2, s3⟩
        rw [hsp] at q1 q2 q3 q4 q5
        cases e2 with
        | error err2 => exact ⟨q1.trans p1, q2.trans p2, q3.trans p3, q4.trans p4, q5.trans p5⟩
        | ok u2 => exact ⟨q1.trans p1, q2.trans p2, q3.trans p3, q4.trans p4, q5.trans p5⟩

/-- Identity cells after a session-resuming `initialize` in which both URL
parses succeed: the session's correlation ID and secret key go through the
`||`-fallback, the token and server URL are adopted verbatim. -/
theorem initializeClient_cells_sessionInfo (s : ClientState) (opts : Options)
    (ent : Entropy) (r : Option HttpResponse) (si : SessionInfo)
    (hsi : opts.sessionInfo = some si) (u0 u2 : URLModel)
    (hp0 : parseURL (jsOr opts.serverURL "https://oast.site") = some u0)
    (hp2 : parseURL si.serverURL = some u2) :
    ((initializeClient s opts ent r).2).correlationID
      = some (jsOr (some si.correlationID)
          (generateRandomID ent.corrSeed (jsOrNat opts.correlationIdLength 20)))
    ∧ ((initializeClient s opts ent r).2).secretKey
      = some (jsOr (some si.secretKey)
          (generateRandomID ent.secretSeed (jsOrNat opts.correlationIdNonceLength 13)))
    ∧ ((initializeClient s opts ent r).2).serverURL = some u2
    ∧ ((initializeClient s opts ent r).2).token = some si.token
    ∧ ((initializeClient s opts ent r).2).correlationIdNonceLength
      = jsOrNat opts.correlationIdNonceLength 13 := by
  simp only [initializeClient, hsi, hp0, hp2, Option.map_some']
  exact ⟨(initializeFinish_cells _ opts r).1, (initializeFinish_cells _ opts r).2.1,
    (initializeFinish_cells _ opts r).2.2.1, (initializeFinish_cells _ opts r).2.2.2.1,
    (initializeFinish_cells _ opts r).2.2.2.2⟩

/-- Whatever the options, entropy and registration outcome, `initialize`
always leaves a nonempty correlation ID in place: a fresh identifier has
length at least one (the `|| 20` default makes the length positive), and a
resumed one is adopted only when nonempty. -/
theorem initializeClient_correlationID_ne_empty (s : ClientState)
    (opts : Options) (ent : Entropy) (r : Option HttpResponse) :
    ∃ c, ((initializeClient s opts ent r).2).correlationID = some c ∧ c ≠ "" := by
  have hg : generateRandomID ent.corrSeed (jsOrNat opts.correlationIdLength 20) ≠ "" :=
    generateRandomID_ne_empty _ _ (jsOrNat_pos _ _ (by omega))
  have hjs : jsOr (opts.sessionInfo.map SessionInfo.correlationID)
      (generateRandomID ent.corrSeed (jsOrNat opts.correlationIdLength 20)) ≠ "" :=
    jsOr_ne_empty _ _ hg
  refine ⟨jsOr (opts.sessionInfo.map SessionInfo.correlationID)
      (generateRandomID ent.corrSeed (jsOrNat opts.correlationIdLength 20)), ?_, hjs⟩
  simp only [initializeClient]
  rcases hp : parseURL (jsOr opts.serverURL "https://oast.site") with _ | u
  · rfl
  · rcases hsi : opts.sessionInfo with _ | si
    · simpa [hsi] using (initializeFinish_cells _ opts r).1
    · rcases hp2 : parseURL si.serverURL with _ | u2
      · simp [hsi, hp2]
      · simpa [hsi, hp2] using (initializeFinish_cells _ opts r).1

/-- The same invariant for the secret key. -/
theorem initializeClient_secretKey_ne_empty (s : ClientState)
    (opts : Options) (ent : Entropy) (r : Option HttpResponse) :
    ∃ k, ((initializeClient s opts ent r).2).secretKey = some k ∧ k ≠ "" := by
  have hg : generateRandomID ent.secretSeed (jsOrNat opts.correlationIdNonceLength 13) ≠ "" :=
    generateRandomID_ne_empty _ _ (jsOrNat_pos _ _ (by omega))
  have hjs : jsOr (opts.sessionInfo.map SessionInfo.secretKey)
      (generateRandomID ent.secretSeed (jsOrNat opts.correlationIdNonceLength 13)) ≠ "" :=
    jsOr_ne_empty _ _ hg
  refine ⟨jsOr (opts.sessionInfo.map SessionInfo.secretKey)
      (generateRandomID ent.secretSeed (jsOrNat opts.correlationIdNonceLength 13)), ?_, hjs⟩
  simp only [initializeClient]
  rcases hp : parseURL (jsOr opts.serverURL "https://oast.site") with _ | u
  · rfl
  · rcases hsi : opts.sessionInfo with _ | si
    · simpa [hsi] using (initializeFinish_cells _ opts r).2.1
    · rcases hp2 : parseURL si.serverURL with _ | u2
      · simp [hsi, hp2]
      · simpa [hsi, hp2] using (initializeFinish_cells _ opts r).2.1

/-- The polling interval after `initializeFinish`: unchanged, unless a truthy
`keepAliveInterval` was adopted verbatim. -/
theorem initializeFinish_pollingInterval (s : ClientState) (opts : Options)
    (r : Option HttpResponse) :
    ((initializeFinish s opts r).2).pollingInterval = s.pollingInterval
    ∨ ∃ k, opts.keepAliveInterval = some k ∧ k ≠ 0
        ∧ ((initializeFinish s opts r).2).pollingInterval = k := by
  obtain ⟨-, -, -, -, -, p6⟩ := performRegistration_cells s r
  unfold initializeFinish
  rcases hpr : performRegistration s r with ⟨e, s1⟩
  rw [hpr] at p6
  cases e with
  | error err => exact Or.inl p6
  | ok logged =>
    cases hka : opts.keepAliveInterval with
    | none => exact Or.inl p6
    | some k =>
      by_cases hk : k = 0
      · simp only [hk, reduceIte]
        exact Or.inl p6
      · simp only [hk, reduceIte]
        refine Or.inr ⟨k, rfl, hk, ?_⟩
        obtain ⟨-, -, -, -, -, q6⟩ := startPolling_cells { s1 with pollingInterval := k }
        rcases hsp : startPolling { s1 with pollingInterval := k } with ⟨e2, s3⟩
        rw [hsp] at q6
        cases e2 <;> exact q6

/-- The polling interval after a full `initialize`: unchanged, unless a
truthy `keepAliveInterval` was adopted verbatim. -/
theorem initializeClient_pollingInterval (s : ClientState) (opts : Options)
    (ent : Entropy) (r : Option HttpResponse) :
    ((initializeClient s opts ent r).2).pollingInterval = s.pollingInterval
    ∨ ∃ k, opts.keepAliveInterval = some k ∧ k ≠ 0
        ∧ ((initializeClient s opts ent r).2).pollingInterval = k := by
  simp only [initializeClient]
  rcases hp : parseURL (jsOr opts.serverURL "https://oast.site") with _ | u
  · exact Or.inl rfl
  · rcases hsi : opts.sessionInfo with _ | si
    · simpa [hsi] using initializeFinish_pollingInterval _ opts r
    · rcases hp2 : parseURL si.serverURL with _ | u2
      · simp [hsi, hp2]
      · simpa [hsi, hp2] using initializeFinish_pollingInterval _ opts r

/-- A concrete client in the Closed state (as after a successful `close`). -/
def exClosed : ClientState :=
  { state := CState.Closed, correlationID := some "abcdefghij0123456789",
    secretKey := some "abcdefghij012",
    serverURL := some ⟨"https", "oast.site", "/"⟩, token := some "tok",
    quitPollingFlag := false, correlationIdNonceLength := 13,
    pollingInterval := 5000 }

/-- C1, counterexample: from the Closed state `startPolling` does not fail —
its guard only rejects Polling — and the client transitions into Polling.
Closed is therefore not terminal, and Polling is entered from a state other
than Idle, contradicting the claim. -/
theorem C1_counterexample :
    exClosed.state = CState.Closed
    ∧ (startPolling exClosed).1 = Except.ok ()
    ∧ ((startPolling exClosed).2).state = CState.Polling := by
  refine ⟨rfl, ?_, ?_⟩ <;> rfl

/-- C1 (amended): `startPolling` succeeds exactly when the state is not
Polling — from Idle, but equally from Closed — and then enters Polling.
Closed is terminal only for `stopPolling`, `poll` and `close`, which throw a
StateError and leave the state unchanged; `startPolling` moves Closed into
Polling, and a 200 registration exchange moves Closed back to Idle. -/
theorem C1_closed_not_terminal (s : ClientState) (r : Option HttpResponse)
    (r200 : HttpResponse) (h200 : r200.status = 200) (decode : DecodeFn)
    (pr : Option PollResponse) :
    ((startPolling s).1 = Except.ok () ↔ s.state ≠ CState.Polling)
    ∧ (s.state ≠ CState.Polling →
        startPolling s
          = (Except.ok (), { s with quitPollingFlag := false, state := CState.Polling }))
    ∧ (s.state = CState.Closed →
        stopPolling s = (Except.error (Err.StateError "Client is not polling"), s)
        ∧ (poll decode s pr).1 = Except.error (Err.StateError "Client is not polling")
        ∧ close s r = (Except.error (Err.StateError "Client is already closed"), s)
        ∧ (s.serverURL ≠ none →
            performRegistration s (some r200)
              = (Except.ok none, { s with state := CState.Idle }))) := by
  refine ⟨?_, ?_, ?_⟩
  · unfold startPolling
    by_cases h : s.state = CState.Polling <;> simp [h]
  · intro h
    unfold startPolling
    simp [h]
  · intro hc
    have hnp : ¬ s.state = CState.Polling := by rw [hc]; simp
    refine ⟨?_, ?_, ?_, ?_⟩
    · unfold stopPolling; simp [hnp]
    · unfold poll; simp [hnp]
    · unfold close; simp [hnp, hc]
    · intro hu
      unfold performRegistration
      simp [hu, h200]

/-- Witness for C1 at the concrete Closed client. -/
theorem C1_closed_not_terminal_witness :
    (startPolling exClosed).1 = Except.ok ()
    ∧ ((startPolling exClosed).2).state = CState.Polling
    ∧ (stopPolling exClosed).1 = Except.error (Err.StateError "Client is not polling")
    ∧ (close exClosed (some ⟨500, "oops"⟩)).2 = exClosed := by
  have h := C1_closed_not_terminal exClosed (some ⟨500, "oops"⟩) ⟨200, "ok"⟩ rfl
    (fun _ _ => none) none
  refine ⟨(h.1).mpr (by decide), ?_, ?_, ?_⟩
  · rw [h.2.1 (by decide)]
  · rw [(h.2.2 rfl).1]
  · rw [(h.2.2 rfl).2.2.1]

/-- C4: `close` throws a StateError from Polling ("should stop polling before
closing") and from Closed ("already closed"), leaving the state unchanged in
both cases; from Idle, a non-200 deregistration response throws a
Deregistration error carrying the body with the state still unchanged (close
did not complete), and only a 200 response transitions the state to Closed. -/
theorem C4_close_guards_and_deregistration (s : ClientState) (r : HttpResponse)
    (hu : s.serverURL ≠ none) :
    (s.state = CState.Polling →
      close s (some r)
        = (Except.error (Err.StateError "Client should stop polling before closing"), s))
    ∧ (s.state = CState.Closed →
      close s (some r) = (Except.error (Err.StateError "Client is already closed"), s))
    ∧ (s.state = CState.Idle → r.status ≠ 200 →
      close s (some r) = (Except.error (Err.DeregistrationError r.body), s))
    ∧ (s.state = CState.Idle → r.status = 200 →
      close s (some r) = (Except.ok (), { s with state := CState.Closed })) := by
  refine ⟨?_, ?_, ?_, ?_⟩
  · intro h; unfold close; simp [h]
  · intro h
    have hnp : ¬ s.state = CState.Polling := by rw [h]; simp
    unfold close; simp [hnp, h]
  · intro h hs
    have hnp : ¬ s.state = CState.Polling := by rw [h]; simp
    have hnc : ¬ s.state = CState.Closed := by rw [h]; simp
    unfold close; simp [hnp, hnc, hu, hs]
  · intro h hs
    have hnp : ¬ s.state = CState.Polling := by rw [h]; simp
    have hnc : ¬ s.state = CState.Closed := by rw [h]; simp
    unfold close; simp [hnp, hnc, hu, hs]

/-- A concrete Idle client with a complete session. -/
def exIdle : ClientState :=
  { state := CState.Idle, correlationID := some "abcdefghij0123456789",
    secretKey := some "abcdefghij012",
    serverURL := some ⟨"https", "oast.site", "/"⟩, token := some "tok",
    quitPollingFlag := false, correlationIdNonceLength := 13,
    pollingInterval := 5000 }

/-- Witness for C4: at the Idle client, a 500 deregistration response leaves
the state unchanged with a Deregistration error, a 200 closes. -/
theorem C4_close_guards_and_deregistration_witness :
    exIdle.serverURL ≠ none
    ∧ close exIdle (some ⟨500, "server error"⟩)
        = (Except.error (Err.DeregistrationError "server error"), exIdle)
    ∧ close exIdle (some ⟨200, "ok"⟩)
        = (Except.ok (), { exIdle with state := CState.Closed }) := by
  have h5 := C4_close_guards_and_deregistration exIdle ⟨500, "server error"⟩ (by decide)
  have h2 := C4_close_guards_and_deregistration exIdle ⟨200, "ok"⟩ (by decide)
  exact ⟨by decide, h5.2.2.1 rfl (by decide), h2.2.2.2 rfl rfl⟩

/-- C2: a poll cycle whose response has status 401 invokes the handler zero
times and records the Authentication error ("Couldn't authenticate to the
server"); any other non-200 status (e.g. 500) records a Polling error
carrying the response body; the two recorded error values are distinct, so
the caller of the poll operation can tell the failure kinds apart. -/
theorem C2_auth_error_distinct_from_polling (s : ClientState)
    (hu : s.serverURL ≠ none) (decode : DecodeFn) (r1 r2 : PollResponse)
    (h1 : r1.status = 401) (h2 : r2.status ≠ 200) (h2' : r2.status ≠ 401) :
    getInteractions decode s (some r1) = ([], some Err.AuthenticationError)
    ∧ getInteractions decode s (some r2) = ([], some (Err.PollingError r2.errBody))
    ∧ Err.AuthenticationError ≠ Err.PollingError r2.errBody
    ∧ (s.state = CState.Polling →
        poll decode s (some r1) = (Except.ok (), [], some Err.AuthenticationError)) := by
  have h1' : r1.status ≠ 200 := by rw [h1]; decide
  refine ⟨?_, ?_, by simp, ?_⟩
  · unfold getInteractions
    simp [hu, h1', h1]
  · unfold getInteractions
    simp [hu, h2, h2']
  · intro hp
    have hnp : ¬ s.state ≠ CState.Polling := by simp [hp]
    unfold poll getInteractions
    simp [hnp, hu, h1', h1]

/-- A concrete client in the Polling state with a complete session. -/
def exPolling : ClientState :=
  { state := CState.Polling, correlationID := some "abcdefghij0123456789",
    secretKey := some "abcdefghij012",
    serverURL := some ⟨"https", "oast.site", "/"⟩, token := some "tok",
    quitPollingFlag := false, correlationIdNonceLength := 13,
    pollingInterval := 5000 }

/-- A concrete decrypt-and-decode function: the item "bad" fails, everything
else decodes. -/
def exDecode : DecodeFn := fun k item =>
  if item = "bad" then none else some (k ++ ":" ++ item)

/-- Witness for C2: a 401 and a 500 response at the concrete Polling client. -/
theorem C2_auth_error_distinct_from_polling_witness :
    getInteractions exDecode exPolling (some ⟨401, "no", "K", none⟩)
      = ([], some Err.AuthenticationError)
    ∧ getInteractions exDecode exPolling (some ⟨500, "boom", "K", none⟩)
      = ([], some (Err.PollingError "boom"))
    ∧ Err.AuthenticationError ≠ Err.PollingError "boom"
    ∧ poll exDecode exPolling (some ⟨401, "no", "K", none⟩)
      = (Except.ok (), [], some Err.AuthenticationError) := by
  have h := C2_auth_error_distinct_from_polling exPolling (by decide) exDecode
    ⟨401, "no", "K", none⟩ ⟨500, "boom", "K", none⟩ rfl (by decide) (by decide)
  exact ⟨h.1, h.2.1, h.2.2.1, h.2.2.2 rfl⟩

/-- One scheduler iteration with the quit flag clear: run the cycle, keep
looping. -/
theorem pollingLoop_cons (decode : DecodeFn) (s : ClientState)
    (r : Option PollResponse) (rs : List (Option PollResponse))
    (hq : s.quitPollingFlag = false) :
    pollingLoop decode s (r :: rs)
      = getInteractions decode s r :: pollingLoop decode s rs := by
  have h : pollingLoop decode s (r :: rs)
      = if s.quitPollingFlag then []
        else getInteractions decode s r :: pollingLoop decode s rs := rfl
  rw [h, hq]
  simp

/-- C3: for a 200 poll response whose `data` is `[A, B]` where `A` decodes
and `B` fails, the handler is invoked exactly once — with `A`'s decoding, in
order, before `B` is processed — the cycle records a Decode error, the items
after `B` are not processed (the throw leaves the `for` loop), and the
polling loop is not terminated: with the quit flag still clear, the next
cycle executes and its results follow. -/
theorem C3_decode_failure_aborts_batch_not_loop (s : ClientState)
    (hu : s.serverURL ≠ none) (decode : DecodeFn) (key A B a : String)
    (hA : decode key A = some a) (hB : decode key B = none)
    (r : PollResponse) (hr : r.status = 200) (hk : r.aesKey = key)
    (hd : r.dataField = some [A, B]) (hq : s.quitPollingFlag = false)
    (r2 : Option PollResponse) (rs : List (Option PollResponse)) :
    getInteractions decode s (some r) = ([a], some Err.DecodeError)
    ∧ pollingLoop decode s (some r :: r2 :: rs)
        = ([a], some Err.DecodeError)
          :: getInteractions decode s r2 :: pollingLoop decode s rs := by
  have hcycle : getInteractions decode s (some r) = ([a], some Err.DecodeError) := by
    unfold getInteractions
    simp only [hu, hr, hd, hk, reduceIte, ne_eq, not_true_eq_false, if_false]
    simp [processItems, hA, hB]
  refine ⟨hcycle, ?_⟩
  rw [pollingLoop_cons _ _ _ _ hq, pollingLoop_cons _ _ _ _ hq, hcycle]

/-- Witness for C3: the concrete batch `["A", "bad"]` at the Polling client,
followed by a second cycle whose response is a 401. -/
theorem C3_decode_failure_aborts_batch_not_loop_witness :
    getInteractions exDecode exPolling (some ⟨200, "", "K", some ["A", "bad"]⟩)
      = (["K:A"], some Err.DecodeError)
    ∧ pollingLoop exDecode exPolling
        [some ⟨200, "", "K", some ["A", "bad"]⟩, some ⟨401, "no", "K", none⟩]
      = [(["K:A"], some Err.DecodeError),
         getInteractions exDecode exPolling (some ⟨401, "no", "K", none⟩)] := by
  have h := C3_decode_failure_aborts_batch_not_loop exPolling (by decide) exDecode
    "K" "A" "bad" "K:A" (by decide) (by decide) ⟨200, "", "K", some ["A", "bad"]⟩
    rfl rfl rfl rfl (some ⟨401, "no", "K", none⟩) []
  exact ⟨h.1, h.2⟩

/-- C5: a registration exchange answered by a transport failure or a non-200
response produces a Registration error that is logged, not thrown:
`performRegistration` returns normally with the state unchanged, and an
enclosing `initialize` (no `keepAliveInterval`) also returns normally,
carrying the logged Registration error and leaving the lifecycle state where
it was — the caller must inspect the state to confirm success. -/
theorem C5_registration_failure_logged_not_thrown (s : ClientState)
    (hu : s.serverURL ≠ none) (r : Option HttpResponse)
    (hfail : ∀ x ∈ r, x.status ≠ 200) (opts : Options) (ent : Entropy)
    (hsi : opts.sessionInfo = none) (hka : opts.keepAliveInterval = none)
    (u : URLModel)
    (hp : parseURL (jsOr opts.serverURL "https://oast.site") = some u) :
    performRegistration s r = (Except.ok (some Err.RegistrationError), s)
    ∧ (initializeClient s opts ent r).1 = Except.ok (some Err.RegistrationError)
    ∧ ((initializeClient s opts ent r).2).state = s.state := by
  have hreg : ∀ s' : ClientState, s'.serverURL ≠ none →
      performRegistration s' r = (Except.ok (some Err.RegistrationError), s') := by
    intro s' hu'
    unfold performRegistration
    cases r with
    | none => simp [hu']
    | some x =>
      have hx := hfail x (by simp)
      simp [hu', hx]
  have hrun : (initializeClient s opts ent r).1 = Except.ok (some Err.RegistrationError)
      ∧ ((initializeClient s opts ent r).2).state = s.state := by
    simp only [initializeClient, hp, hsi]
    unfold initializeFinish
    rw [hreg _ (by simp)]
    simp [hka]
  exact ⟨hreg s hu, hrun.1, hrun.2⟩

/-- Witness for C5: a 500 registration response at the Idle client and an
`initialize` with empty options. -/
theorem C5_registration_failure_logged_not_thrown_witness :
    performRegistration exIdle (some ⟨500, "err"⟩)
      = (Except.ok (some Err.RegistrationError), exIdle)
    ∧ (initializeClient exIdle {} ⟨1, 2, 3⟩ (some ⟨500, "err"⟩)).1
      = Except.ok (some Err.RegistrationError)
    ∧ ((initializeClient exIdle {} ⟨1, 2, 3⟩ (some ⟨500, "err"⟩)).2).state
      = exIdle.state := by
  have h := C5_registration_failure_logged_not_thrown exIdle (by decide)
    (some ⟨500, "err"⟩) (by intro x hx; cases hx; decide) {} ⟨1, 2, 3⟩ rfl rfl
    ⟨"https", "oast.site", "/"⟩ (by decide)
  exact h

/-- The default server URL string parses to the model
`https://oast.site` with normalized path `/`. -/
theorem parseURL_default :
    parseURL "https://oast.site" = some ⟨"https", "oast.site", "/"⟩ := by decide

/-- Lemma: `initializeFinish` with a 200 registration response and no
`keepAliveInterval`: the state becomes Idle and nothing else changes. -/
theorem initializeFinish_200_noKeepAlive (s : ClientState) (opts : Options)
    (hu : s.serverURL ≠ none) (hka : opts.keepAliveInterval = none)
    (r : HttpResponse) (hr : r.status = 200) :
    initializeFinish s opts (some r)
      = (Except.ok none, { s with state := CState.Idle }) := by
  unfold initializeFinish performRegistration
  simp [hu, hr, hka]

/-- Options carrying only a saved session, as when a saved session is fed
back into `initialize`. -/
def resumeOptions (si : SessionInfo) : Options := { sessionInfo := some si }

/-- C6: for an established session (all identity cells present, the
correlation ID and secret key nonempty as `initialize` always leaves them,
the URL well-formed as every parsed URL is), `saveSession`'s output fed back
as `sessionInfo` reproduces the same correlationID, secretKey, serverURL and
token, and a 200 re-registration leaves the new client Idle. -/
theorem C6_saveSession_resume_roundtrip (s : ClientState) (c k t : String)
    (u : URLModel) (hc : s.correlationID = some c) (hcne : c ≠ "")
    (hk : s.secretKey = some k) (hkne : k ≠ "") (hu : s.serverURL = some u)
    (hwf : u.WF) (ht : s.token = some t) (pk : Option String) (ent : Entropy)
    (r : HttpResponse) (hr : r.status = 200) :
    saveSessionInfo s pk = Except.ok ⟨URLModel.toString u, t, "", c, k⟩
    ∧ initializeClient initialState
        (resumeOptions ⟨URLModel.toString u, t, "", c, k⟩) ent (some r)
      = (Except.ok none,
         { state := CState.Idle, correlationID := some c, secretKey := some k,
           serverURL := some u, token := some t, quitPollingFlag := false,
           correlationIdNonceLength := 13, pollingInterval := 5000 }) := by
  constructor
  · unfold saveSessionInfo
    rw [hu, hc, hk]
    have hpk : (match pk with | some _ => "" | none => "") = ("" : String) := by
      cases pk <;> rfl
    have hor : ¬ (c = "" ∨ k = "") := by
      intro hor; rcases hor with h | h
      · exact hcne h
      · exact hkne h
    simp only [hor, if_false, reduceIte, hpk, ht]
    by_cases hte : t = "" <;> simp [jsOr, hte]
  · have hp2 : parseURL (URLModel.toString u) = some u := parseURL_toString u hwf
    simp only [initializeClient, resumeOptions, Option.map_some']
    rw [show jsOr none "https://oast.site" = "https://oast.site" from rfl,
        parseURL_default]
    simp only [hp2]
    rw [initializeFinish_200_noKeepAlive _ _ (by simp) rfl r hr]
    simp [initialState, jsOr, jsOrNat, hcne, hkne]

/-- Witness for C6 at the concrete Idle client. -/
theorem C6_saveSession_resume_roundtrip_witness :
    saveSessionInfo exIdle none
      = Except.ok ⟨URLModel.toString ⟨"https", "oast.site", "/"⟩, "tok", "",
          "abcdefghij0123456789", "abcdefghij012"⟩
    ∧ initializeClient initialState
        (resumeOptions ⟨URLModel.toString ⟨"https", "oast.site", "/"⟩, "tok", "",
          "abcdefghij0123456789", "abcdefghij012"⟩) ⟨1, 2, 3⟩ (some ⟨200, "ok"⟩)
      = (Except.ok none,
         { state := CState.Idle, correlationID := some "abcdefghij0123456789",
           secretKey := some "abcdefghij012",
           serverURL := some ⟨"https", "oast.site", "/"⟩, token := some "tok",
           quitPollingFlag := false, correlationIdNonceLength := 13,
           pollingInterval := 5000 }) := by
  exact C6_saveSession_resume_roundtrip exIdle "abcdefghij0123456789"
    "abcdefghij012" "tok" ⟨"https", "oast.site", "/"⟩ rfl (by decide) rfl
    (by decide) rfl (by unfold URLModel.WF; decide) rfl none ⟨1, 2, 3⟩
    ⟨200, "ok"⟩ rfl

/-- C7, counterexample: `initialize` with `keepAliveInterval = -1000` — a
number, and truthy in JavaScript — adopts the negative value verbatim, so
`pollingIntervalMillis` ends at `-1000` although the starting state satisfied
the invariant `> 0`. -/
theorem C7_counterexample :
    initialState.pollingInterval > 0
    ∧ ((initializeClient initialState { keepAliveInterval := some (-1000) }
          ⟨1, 2, 3⟩ (some ⟨200, "ok"⟩)).2).pollingInterval = -1000
    ∧ ¬ ((initializeClient initialState { keepAliveInterval := some (-1000) }
          ⟨1, 2, 3⟩ (some ⟨200, "ok"⟩)).2).pollingInterval > 0 := by
  refine ⟨by decide, by decide, by decide⟩

/-- C7 (amended): the invariant `pollingIntervalMillis > 0` is preserved by
`setRefreshTimeSecond` for every argument (a rejected one leaves the interval
unchanged, an accepted one sets `seconds*1000 ≥ 5000`), by `startPolling`,
`stopPolling` and `close` (which never touch the interval), and by
`initialize` whenever the caller-supplied `keepAliveInterval` is absent, zero
(falsy, hence ignored) or positive; a negative `keepAliveInterval` is adopted
verbatim and breaks the invariant (see the counterexample). -/
theorem C7_pollingInterval_positive (s : ClientState)
    (hpos : s.pollingInterval > 0) (sec : Int) (opts : Options) (ent : Entropy)
    (r : Option HttpResponse) (r2 : Option HttpResponse)
    (hka : ∀ x ∈ opts.keepAliveInterval, 0 ≤ x) :
    ((setRefreshTimeSecond s sec).2).pollingInterval > 0
    ∧ ((startPolling s).2).pollingInterval > 0
    ∧ ((stopPolling s).2).pollingInterval > 0
    ∧ ((close s r2).2).pollingInterval > 0
    ∧ ((initializeClient s opts ent r).2).pollingInterval > 0 := by
  refine ⟨?_, ?_, ?_, ?_, ?_⟩
  · unfold setRefreshTimeSecond
    by_cases h : sec < 5 ∨ sec > 3600
    · simpa [h] using hpos
    · push_neg at h
      have h5 : 5 ≤ sec := h.1
      rw [if_neg (by omega : ¬ (sec < 5 ∨ sec > 3600))]
      show sec * 1000 > 0
      omega
  · have := (startPolling_cells s).2.2.2.2.2
    omega
  · unfold stopPolling
    by_cases h : s.state ≠ CState.Polling <;> simpa [h] using hpos
  · have hclose : ((close s r2).2).pollingInterval = s.pollingInterval := by
      unfold close
      repeat' split
      all_goals rfl
    omega
  · rcases initializeClient_pollingInterval s opts ent r with h | ⟨kk, hk1, hk2, hk3⟩
    · omega
    · have := hka kk (by rw [hk1]; simp)
      omega

/-- Witness for C7 at the Idle client with `setRefreshTimeSecond 60` and a
keep-alive of 30000 ms. -/
theorem C7_pollingInterval_positive_witness :
    exIdle.pollingInterval > 0
    ∧ ((setRefreshTimeSecond exIdle 60).2).pollingInterval > 0
    ∧ ((initializeClient exIdle { keepAliveInterval := some 30000 } ⟨1, 2, 3⟩
          (some ⟨200, "ok"⟩)).2).pollingInterval > 0 := by
  have h := C7_pollingInterval_positive exIdle (by decide) 60
    { keepAliveInterval := some 30000 } ⟨1, 2, 3⟩ (some ⟨200, "ok"⟩) none
    (by intro x hx; cases hx; decide)
  exact ⟨by decide, h.1, h.2.2.2.2⟩

/-- C8: `generateUrl` returns the empty string exactly when the state is
Closed or the correlation ID or server URL is absent (stated under the
reachable-state invariant that a present correlation ID is nonempty, cf.
`initializeClient_correlationID_ne_empty`); otherwise it returns
`https://{correlationID}{freshNonce}.{serverHost}` where the nonce is a newly
drawn identifier of the configured nonce length (modelled by the per-call
seed — it is not cached), the result contains the exact correlation ID, its
length after the `https://` prefix is
`len(correlationID) + nonceLength + 1 + len(host)`, and distinct nonces give
distinct addresses under the same session. -/
theorem C8_generateUrl_shape (s : ClientState) (hinv : s.correlationID ≠ some "")
    (seed seed' : Nat) :
    (generateUrl s seed = ""
      ↔ (s.state = CState.Closed ∨ s.correlationID = none ∨ s.serverURL = none))
    ∧ (∀ c u, s.correlationID = some c → s.serverURL = some u →
        s.state ≠ CState.Closed →
        generateUrl s seed
          = "https://" ++ c ++ generateRandomID seed s.correlationIdNonceLength
            ++ "." ++ u.host
        ∧ (generateUrl s seed).length
          = 8 + (c.length + s.correlationIdNonceLength + 1 + u.host.length)
        ∧ (generateRandomID seed s.correlationIdNonceLength
             ≠ generateRandomID seed' s.correlationIdNonceLength →
           generateUrl s seed ≠ generateUrl s seed')) := by
  have hform : ∀ (sd : Nat) c u, s.correlationID = some c → s.serverURL = some u →
      s.state ≠ CState.Closed →
      generateUrl s sd
        = "https://" ++ c ++ generateRandomID sd s.correlationIdNonceLength
          ++ "." ++ u.host := by
    intro sd c u hc hu hnc
    have hcne : c ≠ "" := by
      intro he; exact hinv (by rw [hc, he])
    unfold generateUrl
    rw [hc, hu]
    simp [hnc, hcne]
  have hlen : ∀ (sd : Nat) c u, s.correlationID = some c → s.serverURL = some u →
      s.state ≠ CState.Closed →
      (generateUrl s sd).length
        = 8 + (c.length + s.correlationIdNonceLength + 1 + u.host.length) := by
    intro sd c u hc hu hnc
    rw [hform sd c u hc hu hnc]
    simp only [String.length_append, generateRandomID_length,
      show ("https://" : String).length = 8 from rfl,
      show ("." : String).length = 1 from rfl]
    omega
  refine ⟨⟨?_, ?_⟩, ?_⟩
  · intro he
    by_contra hnone
    push_neg at hnone
    obtain ⟨h1, h2, h3⟩ := hnone
    rcases hc' : s.correlationID with _ | c
    · exact h2 hc'
    rcases hu' : s.serverURL with _ | u
    · exact h3 hu'
    have hl := hlen seed c u hc' hu' h1
    rw [he] at hl
    rw [show ("" : String).length = 0 from rfl] at hl
    omega
  · intro hor
    rcases hor with h1 | h2 | h3
    · unfold generateUrl
      rcases s.correlationID with _ | c
      · rfl
      rcases s.serverURL with _ | u
      · rfl
      simp [h1]
    · unfold generateUrl
      rw [h2]
    · unfold generateUrl
      rcases hc' : s.correlationID with _ | c
      · rfl
      rw [h3]
  · intro c u hc hu hnc
    refine ⟨hform seed c u hc hu hnc, hlen seed c u hc hu hnc, ?_⟩
    intro hne hcontra
    apply hne
    rw [hform seed c u hc hu hnc, hform seed' c u hc hu hnc] at hcontra
    have hdata := congrArg String.data hcontra
    simp only [String.data_append, List.append_assoc] at hdata
    have e1 := List.append_cancel_left hdata
    have e2 := List.append_cancel_left e1
    have e3 := List.append_cancel_right e2
    exact String.ext e3

/-- Witness for C8 at the concrete Idle client with seeds 0 and 1. -/
theorem C8_generateUrl_shape_witness :
    generateUrl exIdle 0
      = "https://" ++ "abcdefghij0123456789"
        ++ generateRandomID 0 exIdle.correlationIdNonceLength ++ "." ++ "oast.site"
    ∧ (generateUrl exIdle 0).length
      = 8 + (("abcdefghij0123456789" : String).length
          + exIdle.correlationIdNonceLength + 1 + ("oast.site" : String).length)
    ∧ generateUrl exIdle 0 ≠ generateUrl exIdle 1
    ∧ (generateUrl exClosed 0 = ""
        ↔ (exClosed.state = CState.Closed ∨ exClosed.correlationID = none
            ∨ exClosed.serverURL = none)) := by
  have h := C8_generateUrl_shape exIdle (by decide) 0 1
  obtain ⟨heq, hlen, hinj⟩ :=
    h.2 "abcdefghij0123456789" ⟨"https", "oast.site", "/"⟩ rfl rfl (by decide)
  have hclosed := (C8_generateUrl_shape exClosed (by decide) 0 1).1
  exact ⟨heq, hlen, hinj (by decide), hclosed⟩

/-- Predicate `beginsWith pat l`: `pat` is an initial segment of `l`. -/
def beginsWith : List Char → List Char → Bool
  | [], _ => true
  | _ :: _, [] => false
  | p :: ps, c :: cs => p = c && beginsWith ps cs

/-- Naive substring search on character lists. -/
def hasSub (pat : List Char) : List Char → Bool
  | [] => beginsWith pat []
  | c :: cs => beginsWith pat (c :: cs) || hasSub pat cs

/-- A JSON text contains the quoted key `key` (followed by a colon). -/
def containsKey (json key : String) : Bool :=
  hasSub ("\"" ++ key ++ "\":").data json.data

/-- Written from the spec's words (§6): "Persisted/exported state layout:
`\x7bserverURL: string, token: string, correlationID: string, secretKey: string\x7d`
— a flat JSON-serializable object", and §4.7: layout exactly
`\x7bserverURL, token, correlationID, secretKey\x7d`.  The serialization of exactly
those four fields, for comparison with the code's actual export. -/
def specSessionJSON (serverURL token correlationID secretKey : String) : String :=
  "\x7b\n  " ++ jsonStrField "serverURL" serverURL ++ ",\n  "
  ++ jsonStrField "token" token ++ ",\n  "
  ++ jsonStrField "correlationID" correlationID ++ ",\n  "
  ++ jsonStrField "secretKey" secretKey ++ "\n\x7d"

/-- C9, counterexample: at a complete session, and with the Crypto Provider
holding private key material, the output of `saveSession` carries a fifth
field `"privateKey"` — so its layout is not exactly the four fields
`\x7bserverURL, token, correlationID, secretKey\x7d` the claim names (the field's
value is always the empty string, so no key material leaks). -/
theorem C9_counterexample :
    saveSession exIdle (some "PRIVATE-KEY-MATERIAL")
      = Except.ok (sessionInfoToJSON ⟨"https://oast.site/", "tok", "",
          "abcdefghij0123456789", "abcdefghij012"⟩)
    ∧ containsKey (sessionInfoToJSON ⟨"https://oast.site/", "tok", "",
          "abcdefghij0123456789", "abcdefghij012"⟩) "privateKey" = true
    ∧ sessionInfoToJSON ⟨"https://oast.site/", "tok", "",
          "abcdefghij0123456789", "abcdefghij012"⟩
        ≠ specSessionJSON "https://oast.site/" "tok"
            "abcdefghij0123456789" "abcdefghij012" := by
  refine ⟨rfl, by decide, by decide⟩

/-- C9 (amended): `saveSession` fails ("Session data is incomplete") exactly
when `serverURL`, `correlationID` or `secretKey` is absent (stated under the
reachable-state invariant that present identifiers are nonempty); otherwise
its output is the flat JSON serialization of `\x7bserverURL, token, privateKey,
correlationID, secretKey\x7d` — four meaningful fields plus a `privateKey`
field that is always the empty string: no private key material is exported,
and the output does not depend on whether the Crypto Provider holds one. -/
theorem C9_saveSession_layout (s : ClientState) (pk pk' : Option String)
    (hc : s.correlationID ≠ some "") (hk : s.secretKey ≠ some "") :
    ((saveSession s pk).toOption.isSome = true
      ↔ (s.serverURL ≠ none ∧ s.correlationID ≠ none ∧ s.secretKey ≠ none))
    ∧ (∀ u c k, s.serverURL = some u → s.correlationID = some c →
        s.secretKey = some k →
        saveSession s pk
          = Except.ok (sessionInfoToJSON
              ⟨URLModel.toString u, jsOr s.token "", "", c, k⟩))
    ∧ saveSession s pk = saveSession s pk' := by
  have key : ∀ (o : Option String) (u : URLModel) (c k : String),
      s.serverURL = some u → s.correlationID = some c → s.secretKey = some k →
      saveSession s o
        = Except.ok (sessionInfoToJSON
            ⟨URLModel.toString u, jsOr s.token "", "", c, k⟩) := by
    intro o u c k hu hc2 hk2
    have hcne : c ≠ "" := fun he => hc (by rw [hc2, he])
    have hkne : k ≠ "" := fun he => hk (by rw [hk2, he])
    have hor : ¬ (c = "" ∨ k = "") := by
      rintro (h | h)
      exacts [hcne h, hkne h]
    have hpk : (match o with | some _ => "" | none => "") = ("" : String) := by
      cases o <;> rfl
    unfold saveSession saveSessionInfo
    rw [hu, hc2, hk2]
    simp [hor, hpk, Except.map]
  have herr : s.serverURL = none ∨ s.correlationID = none ∨ s.secretKey = none →
      (saveSession s pk).toOption = none := by
    intro h
    rcases hu : s.serverURL with _ | u
    · unfold saveSession saveSessionInfo
      rw [hu]
      rfl
    rcases hc2 : s.correlationID with _ | c
    · unfold saveSession saveSessionInfo
      rw [hu, hc2]
      rfl
    rcases hk2 : s.secretKey with _ | k
    · unfold saveSession saveSessionInfo
      rw [hu, hc2, hk2]
      rfl
    rcases h with h | h | h
    · rw [h] at hu; cases hu
    · rw [h] at hc2; cases hc2
    · rw [h] at hk2; cases hk2
  refine ⟨⟨?_, ?_⟩, fun u c k hu hc2 hk2 => key pk u c k hu hc2 hk2, ?_⟩
  · intro hok
    refine ⟨?_, ?_, ?_⟩ <;> intro hnone
    · rw [herr (Or.inl hnone)] at hok; simp at hok
    · rw [herr (Or.inr (Or.inl hnone))] at hok; simp at hok
    · rw [herr (Or.inr (Or.inr hnone))] at hok; simp at hok
  · rintro ⟨h1, h2, h3⟩
    rcases hu : s.serverURL with _ | u
    · exact absurd hu h1
    rcases hc2 : s.correlationID with _ | c
    · exact absurd hc2 h2
    rcases hk2 : s.secretKey with _ | k
    · exact absurd hk2 h3
    rw [key pk u c k hu hc2 hk2]
    rfl
  · rcases hu : s.serverURL with _ | u
    · unfold saveSession saveSessionInfo
      rw [hu]
    rcases hc2 : s.correlationID with _ | c
    · unfold saveSession saveSessionInfo
      rw [hu, hc2]
    rcases hk2 : s.secretKey with _ | k
    · unfold saveSession saveSessionInfo
      rw [hu, hc2, hk2]
    by_cases hce : c = ""
    · unfold saveSession saveSessionInfo
      rw [hu, hc2, hk2]
      simp [hce]
    by_cases hke : k = ""
    · unfold saveSession saveSessionInfo
      rw [hu, hc2, hk2]
      simp [hke]
    rw [key pk u c k hu hc2 hk2, key pk' u c k hu hc2 hk2]

/-- Witness for C9 at the concrete Idle client, with and without private key
material held by the provider. -/
theorem C9_saveSession_layout_witness :
    ((saveSession exIdle (some "PRIV")).toOption.isSome = true
      ↔ (exIdle.serverURL ≠ none ∧ exIdle.correlationID ≠ none
          ∧ exIdle.secretKey ≠ none))
    ∧ saveSession exIdle (some "PRIV")
      = Except.ok (sessionInfoToJSON
          ⟨URLModel.toString ⟨"https", "oast.site", "/"⟩, jsOr exIdle.token "",
            "", "abcdefghij0123456789", "abcdefghij012"⟩)
    ∧ saveSession exIdle (some "PRIV") = saveSession exIdle none := by
  have h := C9_saveSession_layout exIdle (some "PRIV") none (by decide) (by decide)
  exact ⟨h.1, h.2.1 _ _ _ rfl rfl rfl, h.2.2⟩

/-- C10: when `initialize` receives a `sessionInfo` whose `correlationID` and
`secretKey` are empty strings, the `||` fallback treats them like absent
values: a fresh random identifier of the configured length replaces each
(so the adopted correlation ID has exactly the configured length), while the
empty-string `token` from the `sessionInfo` block is adopted verbatim. -/
theorem C10_empty_resumption_fields (s : ClientState) (opts : Options)
    (ent : Entropy) (r : Option HttpResponse) (si : SessionInfo)
    (hsi : opts.sessionInfo = some si) (hsc : si.correlationID = "")
    (hss : si.secretKey = "") (hst : si.token = "") (u0 u2 : URLModel)
    (hp0 : parseURL (jsOr opts.serverURL "https://oast.site") = some u0)
    (hp2 : parseURL si.serverURL = some u2) :
    ((initializeClient s opts ent r).2).correlationID
      = some (generateRandomID ent.corrSeed (jsOrNat opts.correlationIdLength 20))
    ∧ ((initializeClient s opts ent r).2).secretKey
      = some (generateRandomID ent.secretSeed (jsOrNat opts.correlationIdNonceLength 13))
    ∧ (((initializeClient s opts ent r).2).correlationID.map String.length)
      = some (jsOrNat opts.correlationIdLength 20)
    ∧ ((initializeClient s opts ent r).2).token = some "" := by
  obtain ⟨e1, e2, e3, e4, e5⟩ :=
    initializeClient_cells_sessionInfo s opts ent r si hsi u0 u2 hp0 hp2
  rw [hsc] at e1
  rw [hss] at e2
  rw [hst] at e4
  simp only [jsOr] at e1 e2
  refine ⟨by simpa using e1, by simpa using e2, ?_, e4⟩
  rw [e1]
  simp [generateRandomID_length]

/-- Witness for C10: a saved session whose correlationID, secretKey and token
are all empty strings, resumed on a fresh client. -/
theorem C10_empty_resumption_fields_witness :
    ((initializeClient initialState
        (resumeOptions ⟨"https://oast.site", "", "", "", ""⟩) ⟨1, 2, 3⟩
        (some ⟨200, "ok"⟩)).2).correlationID = some (generateRandomID 2 20)
    ∧ ((initializeClient initialState
        (resumeOptions ⟨"https://oast.site", "", "", "", ""⟩) ⟨1, 2, 3⟩
        (some ⟨200, "ok"⟩)).2).secretKey = some (generateRandomID 3 13)
    ∧ ((initializeClient initialState
        (resumeOptions ⟨"https://oast.site", "", "", "", ""⟩) ⟨1, 2, 3⟩
        (some ⟨200, "ok"⟩)).2).correlationID.map String.length = some 20
    ∧ ((initializeClient initialState
        (resumeOptions ⟨"https://oast.site", "", "", "", ""⟩) ⟨1, 2, 3⟩
        (some ⟨200, "ok"⟩)).2).token = some "" := by
  have h := C10_empty_resumption_fields initialState
    (resumeOptions ⟨"https://oast.site", "", "", "", ""⟩) ⟨1, 2, 3⟩
    (some ⟨200, "ok"⟩) ⟨"https://oast.site", "", "", "", ""⟩ rfl rfl rfl rfl
    ⟨"https", "oast.site", "/"⟩ ⟨"https", "oast.site", "/"⟩ (by decide) (by decide)
  exact h
